import Mathlib

set_option maxRecDepth 8000

/-!
# Verification of the Kwatt API client (`src/api.py`, `src/config_flow.py`, `src/__init__.py`)

Shallow embedding of the Kwatt/Quatt pairing client. HTTP interactions are
modelled by an explicit response environment: each remote call of the client is
given the response the transport would produce for it (`Resp.exn` stands for a
transport-level exception, `Resp.http status body` for a completed HTTP
exchange whose JSON body parsed to `body`). JSON values are modelled by the
inductive `Json`; Python `dict.get`, truthiness, `in`, and iteration are
embedded by `pyGet`, `Json.truthy`, `pyIn`, `pyIter`, each raising (via
`Except`) exactly where the Python operation raises on an ill-typed operand.
-/

/-- A parsed JSON value, the model of every response body. -/
inductive Json where
  | null : Json
  | bool : Bool → Json
  | num : Int → Json
  | str : String → Json
  | arr : List Json → Json
  | obj : List (String × Json) → Json
deriving Repr

mutual

/-- Structural equality of JSON values (Python `==` on parsed JSON). -/
def Json.beq : Json → Json → Bool
  | .null, .null => true
  | .bool a, .bool b => a == b
  | .num a, .num b => a == b
  | .str a, .str b => a == b
  | .arr xs, .arr ys => Json.beqList xs ys
  | .obj fs, .obj gs => Json.beqFields fs gs
  | _, _ => false

/-- Pointwise `Json.beq` on lists. -/
def Json.beqList : List Json → List Json → Bool
  | [], [] => true
  | x :: xs, y :: ys => Json.beq x y && Json.beqList xs ys
  | _, _ => false

/-- Pointwise `Json.beq` on association lists. -/
def Json.beqFields : List (String × Json) → List (String × Json) → Bool
  | [], [] => true
  | (k, v) :: fs, (l, w) :: gs => k == l && Json.beq v w && Json.beqFields fs gs
  | _, _ => false

end

instance : BEq Json := ⟨Json.beq⟩

/-- Python truthiness of a JSON value (`if x:`): `None`, `False`, `0`, `""`,
`[]`, `{}` are falsey, everything else truthy. -/
def Json.truthy : Json → Bool
  | .null => false
  | .bool b => b
  | .num n => n != 0
  | .str s => s != ""
  | .arr xs => !xs.isEmpty
  | .obj fs => !fs.isEmpty

/-- Python truthiness of an optional slot (`self._id_token` is `str | None`):
`None` is falsey, a present value is tested by `Json.truthy`. -/
def pyTruthyOpt : Option Json → Bool
  | none => false
  | some j => j.truthy

/-- Python `d.get(k)`: returns the value (or `None`, modelled by the `Option`)
when `d` is a dict, raises `AttributeError` (modelled by `Except.error`)
otherwise. -/
def pyGet (j : Json) (k : String) : Except Unit (Option Json) :=
  match j with
  | .obj fs => .ok (fs.lookup k)
  | _ => .error ()

/-- Python `d.get(k, default)`. -/
def pyGetD (j : Json) (k : String) (d : Json) : Except Unit Json :=
  match j with
  | .obj fs => .ok ((fs.lookup k).getD d)
  | _ => .error ()

/-- Python `x in y`: element membership for a list, key membership for a dict,
substring test for a string, `TypeError` otherwise. -/
def pyIn (x : Json) : Json → Except Unit Bool
  | .arr xs => .ok (xs.contains x)
  | .obj fs => .ok (fs.any (fun p => x == Json.str p.1))
  | .str s =>
    match x with
    | .str t => .ok (decide (t.data <:+: s.data))
    | _ => .error ()
  | _ => .error ()

/-- Python iteration `for v in y`: elements of a list, keys of a dict,
one-character strings of a string, `TypeError` otherwise. -/
def pyIter : Json → Except Unit (List Json)
  | .arr xs => .ok xs
  | .obj fs => .ok (fs.map (fun p => Json.str p.1))
  | .str s => .ok (s.data.map (fun c => Json.str (String.mk [c])))
  | _ => .error ()

/-- Outcome of one remote call as seen by the client: a transport exception
(also covering a body that fails to parse as JSON) or a status with a parsed
JSON body. -/
inductive Resp where
  | exn : Resp
  | http : Nat → Json → Resp
deriving Repr

/-- Python `s.startswith(p)`: the characters of `p` are a prefix of the
characters of `s`. -/
def pyStartsWith (s p : String) : Bool :=
  List.isPrefixOf p.data s.data

/-- Constant `PAIRING_TIMEOUT = 60` — seconds to wait for the button press
(`src/api.py`). -/
def PAIRING_TIMEOUT : Nat := 60

/-- Constant `PAIRING_CHECK_INTERVAL = 2` — seconds between pairing checks
(`src/api.py`). -/
def PAIRING_CHECK_INTERVAL : Nat := 2

/-- The mutable state of a `KwattApiClient` instance (`KwattApiClient.__init__`
in `src/api.py`): the CIC identifier plus the credential fields. Each `str |
None` attribute is an `Option Json`, since Python stores whatever value the
response body supplied. -/
structure KwattApiClient where
  cic : String
  _id_token : Option Json
  _refresh_token : Option Json
  _fid : Option Json
  _firebase_auth_token : Option Json
  _installation_id : Option Json
  _pairing_completed : Bool
deriving Repr

/-- A freshly constructed client (`KwattApiClient.__init__`): all credential
fields `None`, pairing not completed. -/
def KwattApiClient.init (cic : String) : KwattApiClient :=
  { cic := cic
    _id_token := none
    _refresh_token := none
    _fid := none
    _firebase_auth_token := none
    _installation_id := none
    _pairing_completed := false }

/-- Step 1, `_get_firebase_installation`: on HTTP 200 stores `data.get("fid")`
and `data.get("authToken", {}).get("token")`; any other status or exception is
a failure. Exceptions raised while reading the body are caught by the step's
own `except` clause, after any attribute assignments already made. -/
def _get_firebase_installation (self : KwattApiClient) (response : Resp) :
    Bool × KwattApiClient :=
  match response with
  | .exn => (false, self)
  | .http status body =>
    if status == 200 then
      match pyGet body "fid" with
      | .error _ => (false, self)
      | .ok fid =>
        let self := { self with _fid := fid }
        match pyGetD body "authToken" (Json.obj []) with
        | .error _ => (false, self)
        | .ok auth_token =>
          match pyGet auth_token "token" with
          | .error _ => (false, self)
          | .ok token => (true, { self with _firebase_auth_token := token })
    else (false, self)

/-- Step 2, `_signup_new_user`: on HTTP 200 stores `data.get("idToken")` and
`data.get("refreshToken")`; any other status or exception is a failure. -/
def _signup_new_user (self : KwattApiClient) (response : Resp) :
    Bool × KwattApiClient :=
  match response with
  | .exn => (false, self)
  | .http status body =>
    if status == 200 then
      match pyGet body "idToken" with
      | .error _ => (false, self)
      | .ok idToken =>
        let self := { self with _id_token := idToken }
        match pyGet body "refreshToken" with
        | .error _ => (false, self)
        | .ok refreshToken => (true, { self with _refresh_token := refreshToken })
    else (false, self)

/-- Step 3, `_update_user_profile`: fails immediately when `self._id_token`
is falsey; otherwise succeeds exactly on HTTP 200 or 201. Mutates nothing. -/
def _update_user_profile (self : KwattApiClient) (response : Resp) : Bool :=
  if !(pyTruthyOpt self._id_token) then false
  else
    match response with
    | .exn => false
    | .http status _ => status == 200 || status == 201

/-- Step 4, `_request_pair`: fails immediately when `self._id_token` is
falsey; otherwise succeeds exactly on HTTP 200, 201 or 204. Mutates nothing. -/
def _request_pair (self : KwattApiClient) (response : Resp) : Bool :=
  if !(pyTruthyOpt self._id_token) then false
  else
    match response with
    | .exn => false
    | .http status _ => status == 200 || status == 201 || status == 204

/-- One iteration's confirmation test of `_wait_for_pairing`: confirmed
exactly when the response is HTTP 200 and, with `result = data.get("result",
{})` and `cic_ids = result.get("cicIds", [])`, the test `cic_ids and self.cic
in cic_ids` holds. A non-200 status, a transport exception, or an exception
while reading the body all count as "not yet confirmed" for this iteration
(the in-loop `except` swallows them). -/
def check_pairing_response (cic : String) (r : Resp) : Bool :=
  match r with
  | .exn => false
  | .http status body =>
    if status == 200 then
      match pyGetD body "result" (Json.obj []) with
      | .error _ => false
      | .ok result =>
        match pyGetD result "cicIds" (Json.arr []) with
        | .error _ => false
        | .ok cic_ids =>
          if cic_ids.truthy then
            match pyIn (Json.str cic) cic_ids with
            | .ok b => b
            | .error _ => false
          else false
    else false

/-- The polling loop of `_wait_for_pairing`: `k` requests have been issued so
far, `t` seconds have elapsed since `start_time` (requests taken as
instantaneous, so time advances only through the 2-second sleeps). The guard
`t < PAIRING_TIMEOUT` is the code's monotonic-clock check. Returns (success,
total requests issued, elapsed time at return). -/
def wait_loop (cic : String) (env : Nat → Resp) (k t : Nat) : Bool × Nat × Nat :=
  if _h : t < PAIRING_TIMEOUT then
    if check_pairing_response cic (env k) then (true, k + 1, t)
    else wait_loop cic env (k + 1) (t + PAIRING_CHECK_INTERVAL)
  else (false, k, t)
termination_by PAIRING_TIMEOUT - t
decreasing_by simp only [PAIRING_TIMEOUT, PAIRING_CHECK_INTERVAL] at *; omega

/-- Step 5, `_wait_for_pairing`: fails immediately when `self._id_token` is
falsey (no request issued); otherwise polls `GET /me` every
`PAIRING_CHECK_INTERVAL` seconds for up to `PAIRING_TIMEOUT` seconds; on the
first confirmed response sets `_pairing_completed = True` and returns success
at once. `env j` is the response to the `j`-th poll (0-based). Returns
(success, state, requests issued, elapsed seconds at return). -/
def _wait_for_pairing (self : KwattApiClient) (env : Nat → Resp) :
    Bool × KwattApiClient × Nat × Nat :=
  if !(pyTruthyOpt self._id_token) then (false, self, 0, 0)
  else
    match wait_loop self.cic env 0 0 with
    | (true, k, t) => (true, { self with _pairing_completed := true }, k, t)
    | (false, k, t) => (false, self, k, t)

/-- Session operation `get_installations`: returns `[]` without any request when
`self._id_token` is falsey; on HTTP 200 returns `data.get("result", [])`; on
any other status, transport exception, or body-reading exception returns `[]`.
Total by construction — the Python `try` converts every exception into `[]`,
so the operation never raises. -/
def get_installations (self : KwattApiClient) (response : Resp) : Json :=
  if !(pyTruthyOpt self._id_token) then Json.arr []
  else
    match response with
    | .exn => Json.arr []
    | .http status body =>
      if status == 200 then
        match pyGetD body "result" (Json.arr []) with
        | .ok r => r
        | .error _ => Json.arr []
      else Json.arr []

/-- The `for installation in installations:` loop of `_get_installation_id`:
returns the first `externalId` that is truthy, a string, and starts with
`"INS-"`; skips records whose `externalId` is missing or falsey; raises
(`Except.error`, uncaught in `_get_installation_id` itself) when a record is
not a dict or a truthy `externalId` is not a string. -/
def find_installation_id : List Json → Except Unit (Option Json)
  | [] => .ok none
  | installation :: rest =>
    match pyGet installation "externalId" with
    | .error _ => .error ()
    | .ok none => find_installation_id rest
    | .ok (some external_id) =>
      if external_id.truthy then
        match external_id with
        | .str s =>
          if pyStartsWith s "INS-" then .ok (some (Json.str s))
          else find_installation_id rest
        | _ => .error ()
      else find_installation_id rest

/-- Step 6, `_get_installation_id`: fails immediately when `self._id_token`
is falsey; calls `get_installations`; fails when the result is falsey (empty
list); otherwise scans it in order and stores the first `"INS-"`-prefixed
`externalId` as `_installation_id`. This method has no `try` of its own, so an
exception raised while iterating propagates to `authenticate()`'s top-level
handler (`Except.error` here); no attribute is assigned in that case. -/
def _get_installation_id (self : KwattApiClient) (response : Resp) :
    Except Unit (Bool × KwattApiClient) :=
  if !(pyTruthyOpt self._id_token) then .ok (false, self)
  else
    let installations := get_installations self response
    if !installations.truthy then .ok (false, self)
    else
      match pyIter installations with
      | .error _ => .error ()
      | .ok items =>
        match find_installation_id items with
        | .error _ => .error ()
        | .ok none => .ok (false, self)
        | .ok (some v) => .ok (true, { self with _installation_id := some v })

/-- Session operation `refresh_token`: returns `False` at once when `self._refresh_token` is
falsey; on HTTP 200 overwrites `_id_token` with `data.get("id_token")` and
`_refresh_token` with `data.get("refresh_token")` (snake_case fields) and
returns `True`; on any other status or exception returns `False` leaving the
state as it was. -/
def refresh_token (self : KwattApiClient) (response : Resp) :
    Bool × KwattApiClient :=
  if !(pyTruthyOpt self._refresh_token) then (false, self)
  else
    match response with
    | .exn => (false, self)
    | .http status body =>
      if status == 200 then
        match pyGet body "id_token" with
        | .error _ => (false, self)
        | .ok id_token =>
          let self := { self with _id_token := id_token }
          match pyGet body "refresh_token" with
          | .error _ => (false, self)
          | .ok rt => (true, { self with _refresh_token := rt })
      else (false, self)

/-- Session operation `get_cic_data`: returns `None` without any request when `self._id_token`
is falsey; returns the parsed body on HTTP 200 and `None` on any other status
or transport exception. Total by construction — never raises. -/
def get_cic_data (self : KwattApiClient) (response : Resp) : Option Json :=
  if !(pyTruthyOpt self._id_token) then none
  else
    match response with
    | .exn => none
    | .http status body => if status == 200 then some body else none

/-- The six authentication steps, in the order `authenticate()` runs them. -/
inductive Step where
  | firebase : Step
  | signup : Step
  | profile : Step
  | pair : Step
  | wait : Step
  | install : Step
deriving DecidableEq, Repr

/-- The fixed order of the six steps of `authenticate()`. -/
def stepOrder : List Step :=
  [Step.firebase, Step.signup, Step.profile, Step.pair, Step.wait, Step.install]

/-- The responses the transport supplies to one run of `authenticate()`: one
per single-shot step, and a stream for the pairing poller. -/
structure AuthEnv where
  firebase : Resp
  signup : Resp
  profile : Resp
  pair : Resp
  poll : Nat → Resp
  installations : Resp

/-- Method `authenticate()`: runs the six steps in order, stopping at the first
failure; a step's exception escaping its own handler (only possible in step 6)
is caught by the top-level `except` and converted to `False`. Besides the
result and the final state, records the ghost trace of the steps actually
invoked, each with its outcome, for the sequencing claims. -/
def authenticate (self : KwattApiClient) (env : AuthEnv) :
    Bool × KwattApiClient × List (Step × Bool) :=
  match _get_firebase_installation self env.firebase with
  | (false, s1) => (false, s1, [(Step.firebase, false)])
  | (true, s1) =>
    match _signup_new_user s1 env.signup with
    | (false, s2) => (false, s2, [(Step.firebase, true), (Step.signup, false)])
    | (true, s2) =>
      if !(_update_user_profile s2 env.profile) then
        (false, s2, [(Step.firebase, true), (Step.signup, true), (Step.profile, false)])
      else if !(_request_pair s2 env.pair) then
        (false, s2, [(Step.firebase, true), (Step.signup, true), (Step.profile, true),
          (Step.pair, false)])
      else
        match _wait_for_pairing s2 env.poll with
        | (false, s5, _, _) =>
          (false, s5, [(Step.firebase, true), (Step.signup, true), (Step.profile, true),
            (Step.pair, true), (Step.wait, false)])
        | (true, s5, _, _) =>
          match _get_installation_id s5 env.installations with
          | .error _ =>
            (false, s5, [(Step.firebase, true), (Step.signup, true), (Step.profile, true),
              (Step.pair, true), (Step.wait, true), (Step.install, false)])
          | .ok (false, s6) =>
            (false, s6, [(Step.firebase, true), (Step.signup, true), (Step.profile, true),
              (Step.pair, true), (Step.wait, true), (Step.install, false)])
          | .ok (true, s6) =>
            (true, s6, [(Step.firebase, true), (Step.signup, true), (Step.profile, true),
              (Step.pair, true), (Step.wait, true), (Step.install, true)])

/-- Function `validate_cic` (`src/config_flow.py`): a CIC identifier is well-formed
when it starts with `"CIC-"` and has length greater than 4. -/
def validate_cic (cic : String) : Bool :=
  pyStartsWith cic "CIC-" && cic.length > 4

/-- The errors `validate_input` can raise: `InvalidCIC` and `CannotConnect`. -/
inductive FlowError where
  | invalidCIC : FlowError
  | cannotConnect : FlowError
deriving DecidableEq, Repr

/-- The responses available to one run of `validate_input`: everything
`authenticate()` needs plus the response to the final `get_cic_data` probe. -/
structure FlowEnv where
  auth : AuthEnv
  cicData : Resp

/-- Function `validate_input` (`src/config_flow.py`): raises `InvalidCIC` when the
identifier fails `validate_cic` — before the API client is constructed and
before any network response is consulted; then constructs a fresh client,
authenticates, probes `get_cic_data`, and returns the `(title, cic)` info on
success. -/
def validate_input (cic : String) (env : FlowEnv) :
    Except FlowError (String × String) :=
  if !(validate_cic cic) then .error .invalidCIC
  else
    let api := KwattApiClient.init cic
    match authenticate api env.auth with
    | (false, _, _) => .error .cannotConnect
    | (true, api1, _) =>
      let cic_data := get_cic_data api1 env.cicData
      if !(pyTruthyOpt cic_data) then .error .cannotConnect
      else .ok ("Kwatt " ++ cic, cic)

/-- The durable projection of the credential state
(`{id_token, refresh_token, installation_id}`, stored by `src/__init__.py`
via the host's `Store`). -/
structure PersistedTokenSnapshot where
  id_token : Option Json
  refresh_token : Option Json
  installation_id : Option Json
deriving Repr

/-- Modelled from the spec: the snapshot written after authentication or
refresh succeeds — "PersistedTokenSnapshot: `{id_token, refresh_token,
installation_id}`, the durable projection of CredentialState" (§3). The
writing side is invoked from `src/__init__.py` but its implementation is not
present under `src/`. -/
def save_snapshot (self : KwattApiClient) : PersistedTokenSnapshot :=
  { id_token := self._id_token
    refresh_token := self._refresh_token
    installation_id := self._installation_id }

/-- Modelled from the spec: `load_tokens`, called as
`api.load_tokens(stored_data.get("id_token"), stored_data.get("refresh_token"),
stored_data.get("installation_id"))` in `src/__init__.py` but not defined in
`src/api.py`; per §3 and the §8 round-trip property it hydrates the three
credential fields of a client from the snapshot, touching nothing else and
performing no network activity. -/
def load_tokens (self : KwattApiClient) (s : PersistedTokenSnapshot) :
    KwattApiClient :=
  { self with
    _id_token := s.id_token
    _refresh_token := s.refresh_token
    _installation_id := s.installation_id }

/-- States reachable from a freshly constructed client through the public
operations that can mutate the client: `authenticate` and `refresh_token`
(`get_installations` and `get_cic_data` read the state but never write it,
as their embeddings return values without a state component). -/
inductive Reachable : KwattApiClient → Prop where
  | init (cic : String) : Reachable (KwattApiClient.init cic)
  | auth (self : KwattApiClient) (env : AuthEnv) :
      Reachable self → Reachable (authenticate self env).2.1
  | refresh (self : KwattApiClient) (r : Resp) :
      Reachable self → Reachable (refresh_token self r).2

/-- The `externalId` field of an installation record, when the record is an
object carrying one. -/
def externalIdOf (j : Json) : Option Json :=
  match j with
  | .obj fs => fs.lookup "externalId"
  | _ => none

/-- An `externalId` value targeted by installation resolution: a string
starting with `"INS-"`. -/
def isINSValue : Json → Bool
  | .str s => pyStartsWith s "INS-"
  | _ => false

/-- An installation record targeted by installation resolution: its
`externalId` is a string starting with `"INS-"`. -/
def isINSRecord (j : Json) : Bool :=
  ((externalIdOf j).map isINSValue).getD false

/-- A JSON string value. -/
def isStrJson : Json → Bool
  | .str _ => true
  | _ => false

/-- An `externalId` value as the data model describes it: a string whenever
it is truthy. -/
def wellFormedValue (v : Json) : Bool :=
  !v.truthy || isStrJson v

/-- An installation record as the data model describes it: a JSON object
whose `externalId`, when present and truthy, is a string. -/
def wellFormedRecord : Json → Bool
  | .obj fs => ((fs.lookup "externalId").map wellFormedValue).getD true
  | _ => false

/-- An environment in which every remote call fails with a transport
exception; used to instantiate the theorems at concrete inputs. -/
def authEnvExn : AuthEnv :=
  { firebase := .exn
    signup := .exn
    profile := .exn
    pair := .exn
    poll := fun _ => .exn
    installations := .exn }

/-- A flow environment in which every remote call fails. -/
def flowEnvExn : FlowEnv :=
  { auth := authEnvExn, cicData := .exn }

/-- A client holding string tokens, as after a successful signup. -/
def clientWithTokens : KwattApiClient :=
  { KwattApiClient.init "CIC-A" with
    _id_token := some (.str "t")
    _refresh_token := some (.str "r") }

/-- C6: a CIC identifier passes `validate_cic` exactly when it starts with
`"CIC-"` and is longer than 4 characters, and an identifier failing the check
makes `validate_input` raise `InvalidCIC` irrespective of any response the
network could give — the rejection happens at the validation boundary, before
the API client is constructed or any call is made. -/
theorem validate_cic_boundary_c6 (cic : String) :
    (validate_cic cic = true ↔ (pyStartsWith cic "CIC-" = true ∧ 4 < cic.length)) ∧
    (validate_cic cic = false →
      ∀ env : FlowEnv, validate_input cic env = .error .invalidCIC) := by
  constructor
  · simp [validate_cic]
  · intro h env
    simp [validate_input, h]

/-- Witness for C6 at the identifier `"bad-id"` of §8's end-to-end scenario. -/
theorem validate_cic_boundary_c6_witness :
    validate_input "bad-id" flowEnvExn = .error .invalidCIC :=
  (validate_cic_boundary_c6 "bad-id").2 (by decide) flowEnvExn

/-- C8: loading the snapshot persisted from any client state into a freshly
constructed client reproduces the same `idToken`, `refreshToken` and
`installationId`; no authentication step occurs (`load_tokens` only copies
the three fields). -/
theorem snapshot_round_trip_c8 (cic : String) (st : KwattApiClient) :
    (load_tokens (KwattApiClient.init cic) (save_snapshot st))._id_token = st._id_token ∧
    (load_tokens (KwattApiClient.init cic) (save_snapshot st))._refresh_token =
      st._refresh_token ∧
    (load_tokens (KwattApiClient.init cic) (save_snapshot st))._installation_id =
      st._installation_id :=
  ⟨rfl, rfl, rfl⟩

/-- C4: `refresh_token` fails immediately when no refresh token is set; on
HTTP 200 with an object body it overwrites `_id_token`/`_refresh_token` from
the snake_case `id_token`/`refresh_token` fields; `_installation_id` is never
changed; on a non-200 status or a transport exception it returns `false` with
the whole state exactly as before the call. -/
theorem refresh_token_contract_c4 (self : KwattApiClient) (r : Resp) :
    (pyTruthyOpt self._refresh_token = false → refresh_token self r = (false, self)) ∧
    (∀ fs : List (String × Json), r = Resp.http 200 (Json.obj fs) →
      pyTruthyOpt self._refresh_token = true →
      refresh_token self r =
        (true, { self with
                  _id_token := fs.lookup "id_token"
                  _refresh_token := fs.lookup "refresh_token" })) ∧
    ((refresh_token self r).2._installation_id = self._installation_id) ∧
    (∀ status body, r = Resp.http status body → status ≠ 200 →
      refresh_token self r = (false, self)) ∧
    (r = Resp.exn → refresh_token self r = (false, self)) := by
  refine ⟨fun h => by simp [refresh_token, h], ?_, ?_, ?_, ?_⟩
  · intro fs hr htr
    subst hr
    simp [refresh_token, htr, pyGet]
  · rcases htr : pyTruthyOpt self._refresh_token with _ | _
    · simp [refresh_token, htr]
    · cases r with
      | exn => simp [refresh_token, htr]
      | http status body =>
        by_cases hs : status == 200
        · cases body <;> simp [refresh_token, htr, hs, pyGet]
        · simp [refresh_token, htr, hs]
  · intro status body hr hs
    subst hr
    simp [refresh_token, hs]
  · intro hr
    subst hr
    simp [refresh_token]

/-- Witness for C4: a concrete 200 response with fresh snake_case tokens. -/
theorem refresh_token_contract_c4_witness :
    refresh_token clientWithTokens
        (Resp.http 200 (Json.obj [("id_token", .str "t2"), ("refresh_token", .str "r2")])) =
      (true, { clientWithTokens with
                _id_token := some (.str "t2")
                _refresh_token := some (.str "r2") }) :=
  (refresh_token_contract_c4 clientWithTokens _).2.1 _ rfl (by decide)

/-- C10: a nominally successful refresh (HTTP 200, object body) lacking the
`id_token`/`refresh_token` fields still returns `true` while overwriting both
stored tokens with `None`. -/
theorem refresh_success_clears_tokens_c10 (self : KwattApiClient)
    (fs : List (String × Json))
    (hrt : pyTruthyOpt self._refresh_token = true)
    (hid : fs.lookup "id_token" = none)
    (hrf : fs.lookup "refresh_token" = none) :
    refresh_token self (Resp.http 200 (Json.obj fs)) =
      (true, { self with _id_token := none, _refresh_token := none }) := by
  simp [refresh_token, hrt, pyGet, hid, hrf]

/-- Witness for C10: an empty 200 body clears both tokens of a client that
held string tokens. -/
theorem refresh_success_clears_tokens_c10_witness :
    refresh_token clientWithTokens (Resp.http 200 (Json.obj [])) =
      (true, { clientWithTokens with _id_token := none, _refresh_token := none }) :=
  refresh_success_clears_tokens_c10 clientWithTokens [] (by decide) rfl rfl

/-- C7: with an id token set, `get_cic_data` returns the parsed body on HTTP
200 and `None` on any other status or transport exception, and
`get_installations` returns the body's `result` field (defaulting to `[]`) on
HTTP 200 with an object body and `[]` on any other status or transport
exception. Both are total Lean functions — the embedded operations can never
raise. -/
theorem session_ops_total_c7 (self : KwattApiClient) (r : Resp)
    (hid : pyTruthyOpt self._id_token = true) :
    (∀ body, r = Resp.http 200 body → get_cic_data self r = some body) ∧
    (∀ fs, r = Resp.http 200 (Json.obj fs) →
      get_installations self r = (fs.lookup "result").getD (Json.arr [])) ∧
    (∀ status body, r = Resp.http status body → status ≠ 200 →
      get_installations self r = Json.arr [] ∧ get_cic_data self r = none) ∧
    (r = Resp.exn →
      get_installations self r = Json.arr [] ∧ get_cic_data self r = none) := by
  refine ⟨?_, ?_, ?_, ?_⟩
  · intro body hr
    subst hr
    simp [get_cic_data, hid]
  · intro fs hr
    subst hr
    simp [get_installations, hid, pyGetD]
  · intro status body hr hs
    subst hr
    simp [get_installations, get_cic_data, hid, hs]
  · intro hr
    subst hr
    simp [get_installations, get_cic_data, hid]

/-- Witness for C7: concrete 200 and non-200 responses against a client with
tokens. -/
theorem session_ops_total_c7_witness :
    get_cic_data clientWithTokens (Resp.http 200 (Json.obj [("ok", .bool true)])) =
      some (Json.obj [("ok", .bool true)]) :=
  (session_ops_total_c7 clientWithTokens _ (by decide)).1 _ rfl

/-- On a list of well-formed installation records, the scan of
`_get_installation_id` returns (without raising) the `externalId` of the first
record satisfying `isINSRecord`, if any. -/
lemma find_installation_id_wellFormed (items : List Json)
    (h : items.all wellFormedRecord = true) :
    find_installation_id items = .ok ((items.find? isINSRecord).bind externalIdOf) := by
  induction items with
  | nil => rfl
  | cons item rest ih =>
    rw [List.all_cons, Bool.and_eq_true] at h
    obtain ⟨hitem, hrest⟩ := h
    have ihr := ih hrest
    cases item with
    | null => simp [wellFormedRecord] at hitem
    | bool b => simp [wellFormedRecord] at hitem
    | num n => simp [wellFormedRecord] at hitem
    | str s => simp [wellFormedRecord] at hitem
    | arr xs => simp [wellFormedRecord] at hitem
    | obj fs =>
      rcases heq : fs.lookup "externalId" with _ | v
      · simp [find_installation_id, pyGet, heq, List.find?_cons, isINSRecord,
          externalIdOf, ihr]
      · have hv : wellFormedValue v = true := by
          simpa [wellFormedRecord, heq] using hitem
        rcases htr : v.truthy with _ | _
        · have hins : isINSRecord (Json.obj fs) = false := by
            cases v with
            | str s =>
              have hs : s = "" := by simpa [Json.truthy] using htr
              subst hs
              simp [isINSRecord, externalIdOf, heq, isINSValue]
              decide
            | null => simp [isINSRecord, externalIdOf, heq, isINSValue]
            | bool b => simp [isINSRecord, externalIdOf, heq, isINSValue]
            | num n => simp [isINSRecord, externalIdOf, heq, isINSValue]
            | arr xs => simp [isINSRecord, externalIdOf, heq, isINSValue]
            | obj gs => simp [isINSRecord, externalIdOf, heq, isINSValue]
          simp [find_installation_id, pyGet, heq, htr, List.find?_cons, hins, ihr]
        · have hstr : ∃ s, v = Json.str s := by
            rw [wellFormedValue, htr] at hv
            cases v <;> simp_all [isStrJson]
          obtain ⟨s, rfl⟩ := hstr
          rcases hpre : pyStartsWith s "INS-" with _ | _
          · simp [find_installation_id, pyGet, heq, htr, hpre, List.find?_cons,
              isINSRecord, externalIdOf, isINSValue, ihr]
          · simp [find_installation_id, pyGet, heq, htr, hpre, List.find?_cons,
              isINSRecord, externalIdOf, isINSValue]

/-- C5: with an id token set, resolution over any list of well-formed
installation records stores the `externalId` of the first record (in list
order) whose `externalId` starts with `"INS-"` — records lacking the field or
the prefix are skipped — and reports failure (without raising) when the list
is empty or no record matches. -/
theorem installation_resolution_c5 (self : KwattApiClient) (items : List Json)
    (hid : pyTruthyOpt self._id_token = true)
    (hwf : items.all wellFormedRecord = true) :
    _get_installation_id self (Resp.http 200 (Json.obj [("result", Json.arr items)])) =
      (match (items.find? isINSRecord).bind externalIdOf with
       | some v => .ok (true, { self with _installation_id := some v })
       | none => .ok (false, self)) := by
  have hfind := find_installation_id_wellFormed items hwf
  cases items with
  | nil => simp [_get_installation_id, get_installations, hid, pyGetD, Json.truthy]
  | cons item rest =>
    rcases hopt : (List.find? isINSRecord (item :: rest)).bind externalIdOf with _ | v
    · rw [hopt] at hfind
      simp [_get_installation_id, get_installations, hid, pyGetD, Json.truthy,
        pyIter, hfind, hopt]
    · rw [hopt] at hfind
      simp [_get_installation_id, get_installations, hid, pyGetD, Json.truthy,
        pyIter, hfind, hopt]

/-- A mixed list of installation records: a non-matching entry, an entry with
no `externalId`, a falsey one, and two matching entries in order. -/
def sampleInstallations : List Json :=
  [Json.obj [("externalId", Json.str "CIC-X")],
   Json.obj [],
   Json.obj [("externalId", Json.null)],
   Json.obj [("externalId", Json.str "INS-42")],
   Json.obj [("externalId", Json.str "INS-99")]]

/-- Witness for C5: on the mixed list the first `"INS-"`-prefixed
`externalId`, `INS-42`, is stored. -/
theorem installation_resolution_c5_witness :
    _get_installation_id clientWithTokens
        (Resp.http 200 (Json.obj [("result", Json.arr sampleInstallations)])) =
      .ok (true, { clientWithTokens with _installation_id := some (Json.str "INS-42") }) := by
  have h := installation_resolution_c5 clientWithTokens sampleInstallations
    (by decide) (by decide)
  exact h.trans (by rfl)

/-- When the first confirmed poll is the `m`-th (0-based) and its scheduled
time `t + 2·m` is still inside the budget, the loop issues exactly `m + 1`
requests and returns success at that time. -/
lemma wait_loop_first_success (cic : String) (env : Nat → Resp) :
    ∀ m k t : Nat,
      t + PAIRING_CHECK_INTERVAL * m < PAIRING_TIMEOUT →
      (∀ j, j < m → check_pairing_response cic (env (k + j)) = false) →
      check_pairing_response cic (env (k + m)) = true →
      wait_loop cic env k t = (true, k + m + 1, t + PAIRING_CHECK_INTERVAL * m)
  | 0, k, t, hb, _, hm => by
    rw [wait_loop]
    simp only [show PAIRING_CHECK_INTERVAL = 2 from rfl] at hb ⊢
    have ht : t < PAIRING_TIMEOUT := by omega
    rw [Nat.add_zero] at hm
    rw [dif_pos ht, if_pos hm]
    simp
  | n + 1, k, t, hb, hbefore, hm => by
    rw [wait_loop]
    have ht : t < PAIRING_TIMEOUT := by
      simp only [show PAIRING_CHECK_INTERVAL = 2 from rfl,
        show PAIRING_TIMEOUT = 60 from rfl] at hb ⊢
      omega
    have h0 : check_pairing_response cic (env (k + 0)) = false :=
      hbefore 0 (Nat.succ_pos n)
    rw [Nat.add_zero] at h0
    have ih := wait_loop_first_success cic env n (k + 1) (t + PAIRING_CHECK_INTERVAL)
      (by
        simp only [show PAIRING_CHECK_INTERVAL = 2 from rfl,
          show PAIRING_TIMEOUT = 60 from rfl] at hb ⊢
        omega)
      (fun j hj => by
        have h := hbefore (j + 1) (by omega)
        have e : k + (j + 1) = k + 1 + j := by omega
        rw [e] at h
        exact h)
      (by
        have e : k + (n + 1) = k + 1 + n := by omega
        rw [e] at hm
        exact hm)
    rw [dif_pos ht, if_neg (by simp [h0]), ih]
    simp only [Prod.mk.injEq, true_and]
    simp only [show PAIRING_CHECK_INTERVAL = 2 from rfl]
    constructor <;> omega

/-- C2: with an id token set, if the `m`-th poll (0-based) is the first to be
confirmed — HTTP 200 with the configured cic present in `result.cicIds`, the
content of `check_pairing_response` — and it falls within the 60-second
budget, then `_wait_for_pairing` issues exactly `m + 1` GET requests, sets
`_pairing_completed`, and returns success immediately, at elapsed time
`2·m`. -/
theorem wait_for_pairing_first_success_c2 (self : KwattApiClient)
    (env : Nat → Resp) (m : Nat)
    (hid : pyTruthyOpt self._id_token = true)
    (hb : PAIRING_CHECK_INTERVAL * m < PAIRING_TIMEOUT)
    (hbefore : ∀ j, j < m → check_pairing_response self.cic (env j) = false)
    (hm : check_pairing_response self.cic (env m) = true) :
    _wait_for_pairing self env =
      (true, { self with _pairing_completed := true }, m + 1,
        PAIRING_CHECK_INTERVAL * m) := by
  have h := wait_loop_first_success self.cic env m 0 0
    (by omega)
    (fun j hj => by simpa using hbefore j hj)
    (by simpa using hm)
  rw [Nat.zero_add, Nat.zero_add] at h
  simp [_wait_for_pairing, hid, h]

/-- A poll response confirming pairing for the cic `"CIC-A"`. -/
def pairingConfirmedResp : Resp :=
  .http 200 (.obj [("result", .obj [("cicIds", .arr [.str "CIC-A"])])])

/-- A poll response whose `cicIds` does not contain `"CIC-A"`. -/
def pairingPendingResp : Resp :=
  .http 200 (.obj [("result", .obj [("cicIds", .arr [.str "CIC-OTHER"])])])

/-- A response stream whose first three polls are unconfirmed and whose
fourth is confirmed — §8's four-attempt scenario. -/
def pollEnv4 : Nat → Resp :=
  fun j => if j == 3 then pairingConfirmedResp else pairingPendingResp

/-- Witness for C2: in the four-attempt scenario the poller returns success
after exactly 4 requests, 6 seconds in. -/
theorem wait_for_pairing_first_success_c2_witness :
    _wait_for_pairing clientWithTokens pollEnv4 =
      (true, { clientWithTokens with _pairing_completed := true }, 4, 6) :=
  wait_for_pairing_first_success_c2 clientWithTokens pollEnv4 3
    (by decide) (by decide) (by decide) (by decide)

/-- When no poll is ever confirmed, the loop started `2·n` seconds before the
deadline runs exactly `n` more iterations and returns failure exactly at the
deadline. -/
lemma wait_loop_all_false (cic : String) (env : Nat → Resp)
    (h : ∀ j, check_pairing_response cic (env j) = false) :
    ∀ n k t : Nat, t + PAIRING_CHECK_INTERVAL * n = PAIRING_TIMEOUT →
      wait_loop cic env k t = (false, k + n, PAIRING_TIMEOUT)
  | 0, k, t, ht => by
    rw [wait_loop]
    have e : t = PAIRING_TIMEOUT := by
      simp only [show PAIRING_CHECK_INTERVAL = 2 from rfl] at ht
      omega
    subst e
    simp
  | n + 1, k, t, ht => by
    rw [wait_loop]
    have hlt : t < PAIRING_TIMEOUT := by
      simp only [show PAIRING_CHECK_INTERVAL = 2 from rfl,
        show PAIRING_TIMEOUT = 60 from rfl] at ht ⊢
      omega
    have ih := wait_loop_all_false cic env h n (k + 1)
      (t + PAIRING_CHECK_INTERVAL)
      (by
        simp only [show PAIRING_CHECK_INTERVAL = 2 from rfl,
          show PAIRING_TIMEOUT = 60 from rfl] at ht ⊢
        omega)
    rw [dif_pos hlt, if_neg (by simp [h k]), ih]
    simp only [Prod.mk.injEq, true_and, and_true]
    omega

/-- C3: with an id token set, when no poll is ever confirmed — every response
being a non-200 status, a transport exception, or a 200 whose `cicIds` lacks
the configured cic, none of which aborts the loop — `_wait_for_pairing`
terminates (it is a total function) and returns failure after exactly
`60 / 2 = 30` polls, with elapsed time exactly 60 seconds under instantaneous
requests: at least `PAIRING_TIMEOUT` and less than `PAIRING_TIMEOUT`
plus one poll interval. -/
theorem wait_for_pairing_timeout_c3 (self : KwattApiClient) (env : Nat → Resp)
    (hid : pyTruthyOpt self._id_token = true)
    (hnone : ∀ j, check_pairing_response self.cic (env j) = false) :
    _wait_for_pairing self env = (false, self, 30, PAIRING_TIMEOUT) ∧
    PAIRING_TIMEOUT ≤ (_wait_for_pairing self env).2.2.2 ∧
    (_wait_for_pairing self env).2.2.2 < PAIRING_TIMEOUT + PAIRING_CHECK_INTERVAL := by
  have h := wait_loop_all_false self.cic env hnone 30 0 0 (by decide)
  rw [Nat.zero_add] at h
  have hmain : _wait_for_pairing self env = (false, self, 30, PAIRING_TIMEOUT) := by
    simp [_wait_for_pairing, hid, h]
  refine ⟨hmain, ?_, ?_⟩
  · rw [hmain]
  · rw [hmain]
    show PAIRING_TIMEOUT < PAIRING_TIMEOUT + PAIRING_CHECK_INTERVAL
    decide

/-- Witness for C3: with every poll raising a transport exception the poller
gives up exactly at the 60-second deadline after 30 attempts. -/
theorem wait_for_pairing_timeout_c3_witness :
    _wait_for_pairing clientWithTokens (fun _ => Resp.exn) =
      (false, clientWithTokens, 30, PAIRING_TIMEOUT) :=
  (wait_for_pairing_timeout_c3 clientWithTokens (fun _ => Resp.exn)
    (by decide) (fun _ => rfl)).1

/-- C1: for every initial state and every response environment, the trace of
steps `authenticate()` invokes is an in-order prefix of the fixed six-step
sequence (firebase installation, anonymous signup, profile update, pairing
request, pairing wait, installation resolution); every invoked step other
than the last one succeeded — so the first failure aborts the sequence and no
subsequent step is invoked; and `authenticate()` returns `true` exactly when
all six steps were invoked and all six succeeded. -/
theorem authenticate_sequencing_c1 (self : KwattApiClient) (env : AuthEnv) :
    ((authenticate self env).2.2.map Prod.fst) =
      stepOrder.take ((authenticate self env).2.2.length) ∧
    (∀ p ∈ (authenticate self env).2.2.dropLast, p.2 = true) ∧
    ((authenticate self env).1 = true ↔
      (authenticate self env).2.2 = stepOrder.map (fun s => (s, true))) := by
  rcases h1 : _get_firebase_installation self env.firebase with ⟨b1, s1⟩
  cases b1 with
  | false => simp [authenticate, h1, stepOrder]
  | true =>
    rcases h2 : _signup_new_user s1 env.signup with ⟨b2, s2⟩
    cases b2 with
    | false => simp [authenticate, h1, h2, stepOrder]
    | true =>
      rcases h3 : _update_user_profile s2 env.profile with _ | _
      · simp [authenticate, h1, h2, h3, stepOrder]
      · rcases h4 : _request_pair s2 env.pair with _ | _
        · simp [authenticate, h1, h2, h3, h4, stepOrder]
        · rcases h5 : _wait_for_pairing s2 env.poll with ⟨b5, s5, k5, t5⟩
          cases b5 with
          | false => simp [authenticate, h1, h2, h3, h4, h5, stepOrder]
          | true =>
            rcases h6 : _get_installation_id s5 env.installations with u | ⟨b6, s6⟩
            · simp [authenticate, h1, h2, h3, h4, h5, h6, stepOrder]
            · cases b6 with
              | false => simp [authenticate, h1, h2, h3, h4, h5, h6, stepOrder]
              | true => simp [authenticate, h1, h2, h3, h4, h5, h6, stepOrder]

/-- Witness for C1: with every remote call failing, the recorded trace is the
one-element prefix of the six-step order. -/
theorem authenticate_sequencing_c1_witness :
    ((authenticate (KwattApiClient.init "CIC-A") authEnvExn).2.2.map Prod.fst) =
      stepOrder.take
        ((authenticate (KwattApiClient.init "CIC-A") authEnvExn).2.2.length) :=
  (authenticate_sequencing_c1 (KwattApiClient.init "CIC-A") authEnvExn).1

/-- The credential invariant of the data model: `_installation_id` is set only
with pairing confirmed, and then holds an `"INS-"`-prefixed string resolved
from an installation record. -/
def CredentialInv (st : KwattApiClient) : Prop :=
  st._installation_id.isSome = true →
    st._pairing_completed = true ∧
    ∃ s, st._installation_id = some (Json.str s) ∧ pyStartsWith s "INS-" = true

/-- Step 1 never touches `_installation_id` or `_pairing_completed`. -/
lemma firebase_fields (self : KwattApiClient) (r : Resp) :
    (_get_firebase_installation self r).2._installation_id = self._installation_id ∧
    (_get_firebase_installation self r).2._pairing_completed = self._pairing_completed := by
  refine ⟨?_, ?_⟩ <;> (unfold _get_firebase_installation; repeat' split) <;> rfl

/-- Step 2 never touches `_installation_id` or `_pairing_completed`. -/
lemma signup_fields (self : KwattApiClient) (r : Resp) :
    (_signup_new_user self r).2._installation_id = self._installation_id ∧
    (_signup_new_user self r).2._pairing_completed = self._pairing_completed := by
  refine ⟨?_, ?_⟩ <;> (unfold _signup_new_user; repeat' split) <;> rfl

/-- The poller never touches `_installation_id`; it can only raise
`_pairing_completed` to `true`, and does exactly that whenever it succeeds. -/
lemma wait_fields (self : KwattApiClient) (env : Nat → Resp) :
    (_wait_for_pairing self env).2.1._installation_id = self._installation_id ∧
    ((_wait_for_pairing self env).2.1._pairing_completed = self._pairing_completed ∨
      (_wait_for_pairing self env).2.1._pairing_completed = true) ∧
    ((_wait_for_pairing self env).1 = true →
      (_wait_for_pairing self env).2.1._pairing_completed = true) := by
  refine ⟨?_, ?_, ?_⟩
  · (unfold _wait_for_pairing; repeat' split) <;> rfl
  · (unfold _wait_for_pairing; repeat' split)
    · exact Or.inl rfl
    · exact Or.inr rfl
    · exact Or.inl rfl
  · (unfold _wait_for_pairing; repeat' split) <;> intro hb
    · exact absurd hb (by simp)
    · rfl
    · exact absurd hb (by simp)

/-- Operation `refresh_token` never touches `_installation_id` or
`_pairing_completed`. -/
lemma refresh_token_fields (self : KwattApiClient) (r : Resp) :
    (refresh_token self r).2._installation_id = self._installation_id ∧
    (refresh_token self r).2._pairing_completed = self._pairing_completed := by
  refine ⟨?_, ?_⟩ <;> (unfold refresh_token; repeat' split) <;> rfl

/-- A value returned by the record scan is an `"INS-"`-prefixed string. -/
lemma find_installation_id_some : ∀ (items : List Json) (v : Json),
    find_installation_id items = .ok (some v) →
    ∃ s, v = Json.str s ∧ pyStartsWith s "INS-" = true
  | [], v, h => by simp [find_installation_id] at h
  | item :: rest, v, h => by
    simp only [find_installation_id] at h
    rcases hg : pyGet item "externalId" with u | vo <;> rw [hg] at h
    · simp at h
    · rcases vo with _ | ev
      · exact find_installation_id_some rest v (by simpa using h)
      · simp only at h
        by_cases htr : ev.truthy = true
        · rw [if_pos htr] at h
          cases ev with
          | str s =>
            dsimp only at h
            by_cases hpre : pyStartsWith s "INS-" = true
            · rw [if_pos hpre] at h
              simp only [Except.ok.injEq, Option.some.injEq] at h
              exact ⟨s, h.symm, hpre⟩
            · rw [if_neg hpre] at h
              exact find_installation_id_some rest v h
          | null => simp at h
          | bool b => simp at h
          | num n => simp at h
          | arr xs => simp at h
          | obj gs => simp at h
        · rw [if_neg htr] at h
          exact find_installation_id_some rest v h

/-- Step 6 leaves the state unchanged on failure, and on success only writes
an `"INS-"`-prefixed string into `_installation_id`. -/
lemma _get_installation_id_cases (self : KwattApiClient) (r : Resp) :
    (∀ s6, _get_installation_id self r = .ok (false, s6) → s6 = self) ∧
    (∀ s6, _get_installation_id self r = .ok (true, s6) →
      s6._pairing_completed = self._pairing_completed ∧
      ∃ s, s6._installation_id = some (Json.str s) ∧ pyStartsWith s "INS-" = true) := by
  constructor
  · intro s6 h
    unfold _get_installation_id at h
    rcases hid : pyTruthyOpt self._id_token with _ | _
    · simp_all
    · rcases htr : (get_installations self r).truthy with _ | _
      · simp_all
      · rcases hit : pyIter (get_installations self r) with u | items
        · simp_all
        · rcases hf : find_installation_id items with u | vo
          · simp_all
          · rcases vo with _ | v
            · simp_all
            · simp_all
  · intro s6 h
    unfold _get_installation_id at h
    rcases hid : pyTruthyOpt self._id_token with _ | _
    · simp_all
    · rcases htr : (get_installations self r).truthy with _ | _
      · simp_all
      · rcases hit : pyIter (get_installations self r) with u | items
        · simp_all
        · rcases hf : find_installation_id items with u | vo
          · simp_all
          · rcases vo with _ | v
            · simp_all
            · obtain ⟨s, rfl, hpre⟩ := find_installation_id_some items v hf
              simp [hid, htr, hit, hf] at h
              subst h
              exact ⟨rfl, s, rfl, hpre⟩

/-- Transport of the invariant along equal `_installation_id` and
`_pairing_completed` fields. -/
lemma inv_of_fields {a b : KwattApiClient}
    (hi : a._installation_id = b._installation_id)
    (hp : a._pairing_completed = b._pairing_completed)
    (h : CredentialInv b) : CredentialInv a := by
  intro hsome
  rw [hi] at hsome
  obtain ⟨hb, s, hs, hpre⟩ := h hsome
  exact ⟨by rw [hp, hb], s, by rw [hi, hs], hpre⟩

/-- A state with pairing confirmed inherits the invariant from a state with
the same `_installation_id`. -/
lemma inv_pairing_true {a b : KwattApiClient}
    (hi : a._installation_id = b._installation_id)
    (hp : a._pairing_completed = true)
    (h : CredentialInv b) : CredentialInv a := by
  intro hsome
  rw [hi] at hsome
  obtain ⟨_, s, hs, hpre⟩ := h hsome
  exact ⟨hp, s, by rw [hi, hs], hpre⟩

/-- Method `authenticate` preserves the credential invariant. -/
lemma authenticate_preserves_inv (self : KwattApiClient) (env : AuthEnv)
    (h : CredentialInv self) : CredentialInv (authenticate self env).2.1 := by
  obtain ⟨hf1i, hf1p⟩ := firebase_fields self env.firebase
  rcases h1 : _get_firebase_installation self env.firebase with ⟨b1, s1⟩
  rw [h1] at hf1i hf1p
  have hinv1 : CredentialInv s1 := inv_of_fields hf1i hf1p h
  cases b1 with
  | false => simpa [authenticate, h1] using hinv1
  | true =>
    obtain ⟨hf2i, hf2p⟩ := signup_fields s1 env.signup
    rcases h2 : _signup_new_user s1 env.signup with ⟨b2, s2⟩
    rw [h2] at hf2i hf2p
    have hinv2 : CredentialInv s2 := inv_of_fields hf2i hf2p hinv1
    cases b2 with
    | false => simpa [authenticate, h1, h2] using hinv2
    | true =>
      rcases h3 : _update_user_profile s2 env.profile with _ | _
      · simpa [authenticate, h1, h2, h3] using hinv2
      · rcases h4 : _request_pair s2 env.pair with _ | _
        · simpa [authenticate, h1, h2, h3, h4] using hinv2
        · obtain ⟨hf5i, hf5p, hf5t⟩ := wait_fields s2 env.poll
          rcases h5 : _wait_for_pairing s2 env.poll with ⟨b5, s5, k5, t5⟩
          rw [h5] at hf5i hf5p hf5t
          have hinv5 : CredentialInv s5 := by
            rcases hf5p with hp | hp
            · exact inv_of_fields hf5i hp hinv2
            · exact inv_pairing_true hf5i hp hinv2
          cases b5 with
          | false => simpa [authenticate, h1, h2, h3, h4, h5] using hinv5
          | true =>
            have hp5 : s5._pairing_completed = true := hf5t rfl
            rcases h6 : _get_installation_id s5 env.installations with u | ⟨b6, s6⟩
            · simpa [authenticate, h1, h2, h3, h4, h5, h6] using hinv5
            · cases b6 with
              | false =>
                have he : s6 = s5 :=
                  (_get_installation_id_cases s5 env.installations).1 s6 h6
                subst he
                simpa [authenticate, h1, h2, h3, h4, h5, h6] using hinv5
              | true =>
                obtain ⟨hpc, s, hsi, hpre⟩ :=
                  (_get_installation_id_cases s5 env.installations).2 s6 h6
                have hinv6 : CredentialInv s6 :=
                  fun _ => ⟨by rw [hpc, hp5], s, hsi, hpre⟩
                simpa [authenticate, h1, h2, h3, h4, h5, h6] using hinv6

/-- Operation `refresh_token` preserves the credential invariant. -/
lemma refresh_token_preserves_inv (self : KwattApiClient) (r : Resp)
    (h : CredentialInv self) : CredentialInv (refresh_token self r).2 := by
  obtain ⟨hi, hp⟩ := refresh_token_fields self r
  exact inv_of_fields hi hp h

/-- C9: in every state reachable from a freshly constructed client through
the public operations, `_installation_id` is set only if pairing has been
confirmed (`_pairing_completed = true`), and then it holds the
`"INS-"`-prefixed `externalId` of a resolved installation record. -/
theorem installation_id_requires_pairing_c9 (st : KwattApiClient)
    (h : Reachable st) :
    st._installation_id.isSome = true →
      st._pairing_completed = true ∧
      ∃ s, st._installation_id = some (Json.str s) ∧ pyStartsWith s "INS-" = true := by
  induction h with
  | init cic => intro hsome; simp [KwattApiClient.init] at hsome
  | auth self env _ ih => exact authenticate_preserves_inv self env ih
  | refresh self r _ ih => exact refresh_token_preserves_inv self r ih

/-- An environment on which every step of authentication succeeds: §8's
end-to-end success scenario. -/
def authEnvOk : AuthEnv :=
  { firebase := .http 200 (.obj [("fid", .str "f"), ("authToken", .obj [("token", .str "ft")])])
    signup := .http 200 (.obj [("idToken", .str "t"), ("refreshToken", .str "r")])
    profile := .http 200 (.obj [])
    pair := .http 204 (.obj [])
    poll := fun _ => pairingConfirmedResp
    installations := .http 200 (.obj [("result",
      Json.arr [Json.obj [("externalId", Json.str "INS-42")]])]) }

/-- The state of a client after a fully successful authentication run. -/
def clientPaired : KwattApiClient :=
  (authenticate (KwattApiClient.init "CIC-A") authEnvOk).2.1

/-- Witness for C9 at a state reached by a successful authentication run:
its installation id is set, so pairing is confirmed and the id is an
`"INS-"`-prefixed string. -/
theorem installation_id_requires_pairing_c9_witness :
    clientPaired._pairing_completed = true ∧
    ∃ s, clientPaired._installation_id = some (Json.str s) ∧
      pyStartsWith s "INS-" = true :=
  installation_id_requires_pairing_c9 clientPaired
    (Reachable.auth _ authEnvOk (Reachable.init "CIC-A"))
    (by
      have hw : wait_loop "CIC-A" (fun _ => pairingConfirmedResp) 0 0 = (true, 1, 0) := by
        rw [wait_loop]
        rw [dif_pos (by decide), if_pos (by decide)]
      simp +decide [clientPaired, authenticate, authEnvOk, _get_firebase_installation,
        _signup_new_user, _update_user_profile, _request_pair, _wait_for_pairing, hw,
        _get_installation_id, get_installations, find_installation_id,
        pyGet, pyGetD, pyIter, pyTruthyOpt, Json.truthy, pyStartsWith,
        KwattApiClient.init, List.lookup, Option.getD, List.isPrefixOf])

